import Mathlib

/-
Formal model of the Replicated Database Catalog implemented in
src/Databases/DatabaseReplicated.cpp.  Each C++ function that the claims
refer to is embedded as an executable Lean definition; exceptions become
`Except ErrorCode`, coordination-store reads are passed in as explicit
data, and C++ undefined behaviour (dereferencing an invalid iterator,
reading the front of an empty string) is mapped to `Option.none`.
-/

/-- Error codes used by DatabaseReplicated.cpp (namespace DB::ErrorCodes). -/
inductive ErrorCode where
  | NO_ZOOKEEPER
  | LOGICAL_ERROR
  | BAD_ARGUMENTS
  | REPLICA_IS_ALREADY_EXIST
  | DATABASE_REPLICATION_FAILED
  | UNKNOWN_DATABASE
  | UNKNOWN_TABLE
  | NOT_IMPLEMENTED
  | INCORRECT_QUERY
  | ALL_CONNECTION_TRIES_FAILED
deriving DecidableEq

/-- The sentinel written into a replica node to tombstone it
(`static constexpr const char * DROPPED_MARK = "DROPPED"`). -/
def DROPPED_MARK : String := "DROPPED"

/-- Suffix of the shadow database used by recovery
(`static constexpr const char * BROKEN_TABLES_SUFFIX = "_broken_tables"`). -/
def BROKEN_TABLES_SUFFIX : String := "_broken_tables"

/-- Modelled from the spec: `getHostID` concatenates
`Cluster::Address::toString(host, tcp_port)` (which renders `host:port` and is
implemented outside this file's source) with `':' + toString(db_uuid)`,
yielding `host:tcp_port:database_uuid`. -/
def getHostID (host : String) (tcpPort : Nat) (dbUUID : String) : String :=
  host ++ ":" ++ toString tcpPort ++ ":" ++ dbUUID

/-- Outcome of the constructor's replica-registration step. -/
inductive RegisterOutcome where
  | resume
  | createReplicaNodes
deriving DecidableEq

/-- Embedding of the constructor's replica check (DatabaseReplicated.cpp
lines 101-114): `stored` is the result of `tryGet(replica_path)`; when the
node exists with a different value the constructor throws
REPLICA_IS_ALREADY_EXIST, when it exists with the expected host id the
constructor just resumes, and when it is absent it calls
`createReplicaNodesInZooKeeper`. -/
def registerReplica (stored : Option String) (hostId : String) :
    Except ErrorCode RegisterOutcome :=
  match stored with
  | some replicaHostId =>
    if replicaHostId ≠ hostId then .error .REPLICA_IS_ALREADY_EXIST
    else .ok .resume
  | none => .ok .createReplicaNodes

/-- Second half of the constructor's path normalization
(`if (zookeeper_path.front() != '/') zookeeper_path = "/" + zookeeper_path`).
`String::front()` on an empty string is undefined behaviour, modelled as
`none`. -/
def prependSlash : List Char → Option (List Char)
  | [] => none
  | c :: cs => some (if c = '/' then c :: cs else '/' :: c :: cs)

/-- Embedding of the constructor's zookeeper-path normalization
(DatabaseReplicated.cpp lines 78-83): first strip one trailing `'/'`
(`if (zookeeper_path.back() == '/') zookeeper_path.resize(size - 1)`),
then prepend `'/'` when the first character is not `'/'`.  The path is a
list of characters; `none` models undefined behaviour. -/
def normalizeZkPath (p : List Char) : Option (List Char) :=
  prependSlash (if p.getLast? = some '/' then p.dropLast else p)

/-- ZooKeeper node creation modes used by the source. -/
inductive CreateMode where
  | Persistent
  | EphemeralSequential
deriving DecidableEq

/-- A request inside a coordination multi-op (`Coordination::Requests`). -/
inductive KeeperRequest where
  | create (path value : String) (mode : CreateMode)
  | remove (path : String) (version : Int)
deriving DecidableEq

/-- Result codes of `tryMulti` relevant to the source. -/
inductive KeeperError where
  | ZOK
  | ZNODEEXISTS
  | ZNONODE
  | ZBADVERSION
  | ZCONNECTIONLOSS
deriving DecidableEq

/-- The multi-op issued by `createDatabaseNodesInZooKeeper`
(DatabaseReplicated.cpp lines 209-218), in source order.  Note that the
`counter/cnt-` child is created with `zkutil::CreateMode::Persistent`
(line 214) and then removed (line 215). -/
def createDatabaseNodesOps (zkPath : String) : List KeeperRequest :=
  [ .create zkPath "" .Persistent
  , .create (zkPath ++ "/log") "" .Persistent
  , .create (zkPath ++ "/replicas") "" .Persistent
  , .create (zkPath ++ "/counter") "" .Persistent
  , .create (zkPath ++ "/counter/cnt-") "" .Persistent
  , .remove (zkPath ++ "/counter/cnt-") (-1)
  , .create (zkPath ++ "/metadata") "" .Persistent
  , .create (zkPath ++ "/max_log_ptr") "1" .Persistent
  , .create (zkPath ++ "/logs_to_keep") "1000" .Persistent ]

/-- How `createDatabaseNodesInZooKeeper` maps the result of `tryMulti`
(DatabaseReplicated.cpp lines 221-227): ZOK returns true, ZNODEEXISTS
returns false, anything else is rethrown by
`zkutil::KeeperMultiException::check`. -/
def createDatabaseNodesResult (res : KeeperError) : Except KeeperError Bool :=
  match res with
  | .ZOK => .ok true
  | .ZNODEEXISTS => .ok false
  | e => .error e

/-- Helper used to state that a request is an ephemeral-sequential create. -/
def isEphemeralSequentialCreate : KeeperRequest → Bool
  | .create _ _ .EphemeralSequential => true
  | _ => false

/-- Arguments of `DatabaseReplicated::renameTable` as seen by its initial-query
precondition checks: whether the target database is this database
(`this != &to_database`), the two table names, existence of source and
target, and the exchange flag. -/
structure RenameArgs where
  sameDatabase : Bool
  tableName : String
  toTableName : String
  srcExists : Bool
  tgtExists : Bool
  exchange : Bool

/-- A pending metadata-transaction coordination op (`txn->ops`). -/
inductive TxnOp where
  | removeReq (path : String)
  | createReq (path value : String)
deriving DecidableEq

/-- Embedding of the initial-query branch of `DatabaseReplicated::renameTable`
(DatabaseReplicated.cpp lines 541-563).  `meta` models
`readMetadataFile` and `esc` models `escapeForFileName` (both external to the
checks themselves); `zkPath` is `txn->zookeeper_path`.  The four throws
happen, in source order, before any op is pushed into the transaction. -/
def renameTableInitial (meta : String → String) (esc : String → String)
    (zkPath : String) (a : RenameArgs) : Except ErrorCode (List TxnOp) :=
  if a.sameDatabase = false then .error .NOT_IMPLEMENTED
  else if a.tableName = a.toTableName then .error .INCORRECT_QUERY
  else if a.srcExists = false then .error .UNKNOWN_TABLE
  else if a.exchange = true ∧ a.tgtExists = false then .error .UNKNOWN_TABLE
  else
    let statement := meta a.tableName
    let zkFrom := zkPath ++ "/metadata/" ++ esc a.tableName
    let zkTo := zkPath ++ "/metadata/" ++ esc a.toTableName
    .ok ((TxnOp.removeReq zkFrom ::
          (if a.exchange then
            [TxnOp.removeReq zkTo, TxnOp.createReq zkFrom (meta a.toTableName)]
           else [])) ++ [TxnOp.createReq zkTo statement])

/-- The parsed fields of an `ASTCreateQuery` that
`parseQueryFromMetadataInZooKeeper` inspects and rewrites.  A UUID is a
natural number, `UUIDNil` standing for `UUIDHelpers::Nil`. -/
structure ASTCreateQuery where
  uuid : Nat
  database : String
  table : String
  attach : Bool
deriving DecidableEq

/-- Modelled from the spec: `UUIDHelpers::Nil`, the all-zero UUID (defined
outside src/). -/
def UUIDNil : Nat := 0

/-- Modelled from the spec: the table-name placeholder
`TABLE_WITH_UUID_NAME_PLACEHOLDER` that stored CREATE texts carry in place of
the table name (its literal value lives outside src/). -/
def TABLE_WITH_UUID_NAME_PLACEHOLDER : String := "_"

/-- Embedding of `DatabaseReplicated::parseQueryFromMetadataInZooKeeper`
(DatabaseReplicated.cpp lines 478-493), starting after `parseQuery`
succeeded: `create` is the parsed AST, `un` models `unescapeForFileName`
(external), `dbName` is `getDatabaseName()`.  The guard throws
LOGICAL_ERROR when the UUID is Nil, the table is not the placeholder, or the
database is non-empty; otherwise the AST is rewritten. -/
def parseQueryFromMetadataInZooKeeper (dbName : String) (un : String → String)
    (nodeName : String) (create : ASTCreateQuery) :
    Except ErrorCode ASTCreateQuery :=
  if create.uuid = UUIDNil ∨ create.table ≠ TABLE_WITH_UUID_NAME_PLACEHOLDER
      ∨ create.database ≠ "" then
    .error .LOGICAL_ERROR
  else
    .ok { create with database := dbName, table := un nodeName, attach := false }

/-- Ordered-map lookup mimicking `std::map<String,String>::find` on the
metadata snapshot (`table_name_to_metadata.find(name)`). -/
def findVal (m : List (String × String)) (k : String) : Option String :=
  match m with
  | [] => none
  | (a, v) :: rest => if a = k then some v else findVal rest k

/-- Substring search on character lists, mirroring
`std::string::find(needle) != npos`. -/
def containsSub (hay needle : List Char) : Bool :=
  match hay with
  | [] => needle.isEmpty
  | _ :: t => needle.isPrefixOf hay || containsSub t needle

/-- `in_zk->second.find("ReplicatedMergeTree") != std::string::npos`
(DatabaseReplicated.cpp line 324). -/
def containsRMT (s : String) : Bool :=
  containsSub s.data "ReplicatedMergeTree".data

/-- Decision of recoverLostReplica's reconciliation loop for one local table
(DatabaseReplicated.cpp lines 319-343).  `some true` means the table is
pushed into `tables_to_detach`, `some false` means it is kept.  When the name
is absent from the snapshot (`in_zk == table_name_to_metadata.end()`) the
source still evaluates `in_zk->second` at line 324, dereferencing the end
iterator; this undefined behaviour is modelled as `none`.  `parseUUID` models
the `parseQuery(...)->as<ASTCreateQuery>()->uuid` extraction, whose parser
lives outside src/. -/
def shouldDetach (parseUUID : String → Nat) (zkMeta : List (String × String))
    (name localMetadata : String) : Option Bool :=
  match findVal zkMeta name with
  | none => none
  | some zkText =>
    if zkText = localMetadata then some false
    else if containsRMT zkText then
      if parseUUID localMetadata = parseUUID zkText then some false else some true
    else some true

/-- The `tables_to_detach` list built by the reconciliation loop over the
local tables, in iteration order (DatabaseReplicated.cpp lines 313-347);
`none` when any iteration hits the undefined behaviour of `shouldDetach`. -/
def tablesToDetach (parseUUID : String → Nat) (zkMeta : List (String × String)) :
    List (String × String) → Option (List String)
  | [] => some []
  | (name, localMetadata) :: rest =>
    match shouldDetach parseUUID zkMeta name localMetadata with
    | none => none
    | some b =>
      match tablesToDetach parseUUID zkMeta rest with
      | none => none
      | some l => some (if b then name :: l else l)

/-- Observable steps of `recoverLostReplica` after the safety valve:
creating the `<db>_broken_tables` shadow database, moving one marked table
out of the catalog (lumping the drop-dictionary / drop-diskless-table /
rename-to-shadow variants, which depend on local-catalog predicates),
executing a secondary CREATE for one snapshot table that is locally
missing, and finally writing the replica's log pointer. -/
inductive RecoveryAction where
  | createShadowDatabase
  | moveOut (name : String)
  | applyCreate (name : String)
  | setLogPtr
deriving DecidableEq

/-- Embedding of `DatabaseReplicated::recoverLostReplica`
(DatabaseReplicated.cpp lines 300-427) with the consistent metadata snapshot
`zkMeta` already obtained and the local catalog given as `locals`
(name, on-disk metadata text), iterated in order.  Control flow of the
source: (1) a new replica (`our_log_ptr == 0`) with a non-empty catalog
throws LOGICAL_ERROR (line 308); (2) the reconciliation loop computes
`tables_to_detach` (`none` = undefined behaviour, see `shouldDetach`);
(3) the safety valve `total_tables < tables_to_detach.size() * 2` throws
DATABASE_REPLICATION_FAILED (line 352) before any catalog mutation — the
shadow database is created only in the `else if` branch (line 360) and all
moves happen later; (4) otherwise the returned action list records the
mutations in source order. -/
def recoverLostReplica (parseUUID : String → Nat)
    (zkMeta : List (String × String)) (locals : List (String × String))
    (ourLogPtr : Nat) : Option (Except ErrorCode (List RecoveryAction)) :=
  if ourLogPtr = 0 ∧ locals ≠ [] then some (.error .LOGICAL_ERROR)
  else
    match tablesToDetach parseUUID zkMeta locals with
    | none => none
    | some det =>
      if locals.length < det.length * 2 then
        some (.error .DATABASE_REPLICATION_FAILED)
      else
        let keptNames := (locals.map Prod.fst).filter (fun n => !(det.contains n))
        let missing := zkMeta.filter (fun p => !(keptNames.contains p.1))
        some (.ok
          ((if det = [] then [] else [RecoveryAction.createShadowDatabase])
            ++ det.map RecoveryAction.moveOut
            ++ missing.map (fun p => RecoveryAction.applyCreate p.1)
            ++ [RecoveryAction.setLogPtr]))

/-- `id.substr(0, id.find(':'))` — the host part of a replica host-id
(DatabaseReplicated.cpp lines 187-188). -/
def takeUntilColon : List Char → List Char
  | [] => []
  | c :: cs => if c = ':' then [] else c :: takeUntilColon cs

/-- Host part of a host-id string, `substr(0, find(':'))`. -/
def hostPart (id : String) : String :=
  ⟨takeUntilColon id.data⟩

/-- Split a character list at the first `'|'`, returning the parts before and
after it (`name.find('|')`). -/
def breakAtBar : List Char → Option (List Char × List Char)
  | [] => none
  | c :: cs =>
    if c = '|' then some ([], cs)
    else (breakAtBar cs).map (fun p => (c :: p.1, p.2))

/-- Embedding of `DatabaseReplicated::parseFullReplicaName`
(DatabaseReplicated.cpp lines 122-132): a name with no `'|'` or with a second
`'|'` throws LOGICAL_ERROR, otherwise the name splits into (shard, replica). -/
def parseFullReplicaName (name : String) : Except ErrorCode (String × String) :=
  match breakAtBar name.data with
  | none => .error .LOGICAL_ERROR
  | some (shard, rest) =>
    if rest.contains '|' then .error .LOGICAL_ERROR
    else .ok (⟨shard⟩, ⟨rest⟩)

/-- Lexicographic comparison of character lists, the order `std::sort`
applies to the replica names. -/
def charListLe : List Char → List Char → Bool
  | [], _ => true
  | _ :: _, [] => false
  | a :: as, b :: bs =>
    if a < b then true else if b < a then false else charListLe as bs

/-- Insert into a sorted list of strings. -/
def insertSorted (x : String) : List String → List String
  | [] => [x]
  | y :: ys => if charListLe x.data y.data then x :: y :: ys else y :: insertSorted x ys

/-- `std::sort(hosts.begin(), hosts.end())` on replica names. -/
def sortStrings : List String → List String
  | [] => []
  | x :: xs => insertSorted x (sortStrings xs)

/-- One iteration's view of the coordination store inside `getCluster`:
the children of `/replicas` with the result of each `asyncTryGet`
(`none` = a non-ZOK fetch, whose `res.data` is empty), the `cversion`
returned by `getChildren`, and the `version`/`cversion` fields of the
`Coordination::Stat` filled by the re-read `get` (line 169). -/
structure IterObs where
  children : List (String × Option String)
  cversion : Int
  statVersion : Int
  statCversion : Int

/-- Fetch the value of one replica node from the iteration's children. -/
def fetchVal (children : List (String × Option String)) (name : String) :
    Option String :=
  match children with
  | [] => none
  | (n, v) :: rest => if n = name then v else fetchVal rest name

/-- The retry loop of `DatabaseReplicated::getCluster`
(DatabaseReplicated.cpp lines 141-172), iteration `i` observing `obs i`.
Each iteration throws LOGICAL_ERROR on an empty child list (line 150),
sorts the names, fetches every replica node, sets `success` iff all fetches
returned ZOK, and breaks when `success && cver == stat.version` — the source
compares the children version `cver` of the first read against the *data*
version field of the re-read stat (line 170).  When the ten iterations are
exhausted the loop falls through with the last iteration's
`success`/`hosts`/`host_ids`. -/
def gcLoop (obs : Nat → IterObs) :
    Nat → Nat → Except ErrorCode (Bool × List String × List String)
  | _, 0 => .ok (false, [], [])
  | i, remaining + 1 =>
    let o := obs i
    if o.children = [] then .error .LOGICAL_ERROR
    else
      let hosts := sortStrings (o.children.map Prod.fst)
      let results := hosts.map (fetchVal o.children)
      let success := results.all Option.isSome
      let host_ids := results.map (fun r => r.getD "")
      if success ∧ o.cversion = o.statVersion then .ok (true, hosts, host_ids)
      else
        match remaining with
        | 0 => .ok (success, hosts, host_ids)
        | r + 1 => gcLoop obs (i + 1) (r + 1)

/-- The shard-grouping loop of `getCluster`
(DatabaseReplicated.cpp lines 178-196) over the (sorted name, host-id)
pairs: entries whose id equals `DROPPED_MARK` are skipped, the others are
appended to the current shard, a new shard being opened when the shard part
of the name changes and the current shard is non-empty.  `done` holds the
completed shards in reverse order and `cur` the current shard in reverse
order.  `unescape` models `unescapeForFileName` (external). -/
def buildShardsGo (unescape : String → String) :
    List (String × String) → String → List (List String) → List String →
    Except ErrorCode (List (List String))
  | [], _, done, cur => .ok ((cur.reverse :: done).reverse)
  | (name, id) :: rest, curShard, done, cur =>
    if id = DROPPED_MARK then
      buildShardsGo unescape rest curShard done cur
    else
      match parseFullReplicaName name with
      | .error e => .error e
      | .ok (shard, _) =>
        if shard = curShard then
          buildShardsGo unescape rest curShard done (unescape (hostPart id) :: cur)
        else if cur = [] then
          buildShardsGo unescape rest shard done [unescape (hostPart id)]
        else
          buildShardsGo unescape rest shard (cur.reverse :: done) [unescape (hostPart id)]

/-- Grouping of the snapshot into shards, starting from
`current_shard = parseFullReplicaName(hosts.front()).first` with one empty
shard open (lines 178-180).  The source asserts `!hosts.empty()`; the empty
case is mapped to LOGICAL_ERROR. -/
def buildShards (unescape : String → String) (pairs : List (String × String)) :
    Except ErrorCode (List (List String)) :=
  match pairs with
  | [] => .error .LOGICAL_ERROR
  | (name0, _) :: _ =>
    match parseFullReplicaName name0 with
    | .error e => .error e
    | .ok (shard0, _) => buildShardsGo unescape pairs shard0 [] []

/-- Embedding of `DatabaseReplicated::getCluster`
(DatabaseReplicated.cpp lines 134-203): run the retry loop; after the loop
the source throws ALL_CONNECTION_TRIES_FAILED only when `success` is false
(line 173) and otherwise groups the last snapshot into shards. -/
def getClusterM (unescape : String → String) (obs : Nat → IterObs) :
    Except ErrorCode (List (List String)) :=
  match gcLoop obs 1 10 with
  | .error e => .error e
  | .ok (success, hosts, host_ids) =>
    if success then buildShards unescape (hosts.zip host_ids)
    else .error .ALL_CONNECTION_TRIES_FAILED

/-- Store operations performed by `DatabaseReplicated::drop`. -/
inductive StoreAction where
  | set (path value : String)
  | localDrop
  | tryRemoveRecursive (path : String)
  | tryRemove (path : String)
deriving DecidableEq

/-- Embedding of `DatabaseReplicated::drop`
(DatabaseReplicated.cpp lines 495-507), as the ordered list of its effects:
it first writes `DROPPED_MARK` into the replica node, then drops the local
catalog, then removes the replica subtree, then tries to remove
`/replicas`, and — when that succeeded, i.e. this was the last replica —
recursively removes the whole database subtree. -/
def dropOps (replicaPath zkPath : String) (lastReplica : Bool) :
    List StoreAction :=
  StoreAction.set replicaPath DROPPED_MARK ::
  StoreAction.localDrop ::
  StoreAction.tryRemoveRecursive replicaPath ::
  StoreAction.tryRemove (zkPath ++ "/replicas") ::
  (if lastReplica then [StoreAction.tryRemoveRecursive zkPath] else [])

/-- A trivial UUID oracle used for concrete evaluations. -/
def u0 : String → Nat := fun _ => 0

/-- The identity unescape function used for concrete evaluations. -/
def un0 : String → String := fun s => s

/-- First iteration observed by the getCluster evaluation for claim C3: one
replica, every fetch succeeds, the children version of `/replicas` is 7 and
unchanged at the re-read (`statCversion = 7`), while the node's data version
is 0. -/
def obsC3A : IterObs := ⟨[("s1|r1", some "hostA:9000:uuidA")], 7, 0, 7⟩

/-- Later iterations observed by the getCluster evaluation for claim C3: the
fetch of the replica node now fails. -/
def obsC3B : IterObs := ⟨[("s1|r1", none)], 7, 0, 7⟩

/-- Observation trace for claim C3. -/
def traceC3 (n : Nat) : IterObs := if n = 1 then obsC3A else obsC3B

/-- Claim C1 (code bug): the spec says a local table whose name is absent
from the consistent metadata snapshot is marked for detach, but the source
(line 324) evaluates `in_zk->second` even when
`in_zk == table_name_to_metadata.end()`, dereferencing the end iterator:
the decision is undefined behaviour (`none`), not a detach.  For contrast,
a present table with identical text is deterministically kept. -/
theorem C1_code_eval :
    findVal [("a", "x")] "t" = none ∧
    shouldDetach u0 [("a", "x")] "t" "y" = none ∧
    shouldDetach u0 [("t", "x")] "t" "x" = some false :=
  ⟨rfl, rfl, rfl⟩

/-- Claim C2: whenever recovery reaches the reconciliation (it was not
rejected as a non-empty new replica) and the loop computes a detach set
`det` with `total_tables < tables_to_detach.size() * 2`, recoverLostReplica
throws DATABASE_REPLICATION_FAILED; the error return carries no recovery
action, i.e. no table is dropped, renamed or detached and no shadow
database is created. -/
theorem C2_safety_valve (u : String → Nat) (zkMeta locals : List (String × String))
    (ptr : Nat) (det : List String) (hp : ptr ≠ 0)
    (hd : tablesToDetach u zkMeta locals = some det)
    (hlt : locals.length < det.length * 2) :
    recoverLostReplica u zkMeta locals ptr =
      some (Except.error ErrorCode.DATABASE_REPLICATION_FAILED) := by
  have h1 : ¬ (ptr = 0 ∧ locals ≠ []) := fun hc => hp hc.1
  unfold recoverLostReplica
  rw [if_neg h1, hd]
  exact if_pos hlt

/-- Witness for claim C2 at a concrete input: one local table whose text
differs from the snapshot text and is not ReplicatedMergeTree-like, so
`T = 1 < 2 = 2·D`. -/
theorem C2_witness :
    tablesToDetach u0 [("t", "A")] [("t", "B")] = some ["t"] ∧
    recoverLostReplica u0 [("t", "A")] [("t", "B")] 1 =
      some (Except.error ErrorCode.DATABASE_REPLICATION_FAILED) :=
  ⟨rfl, C2_safety_valve u0 [("t", "A")] [("t", "B")] 1 ["t"] (by decide) rfl (by decide)⟩

/-- Claim C3 (code bug): on a store whose `/replicas` children version is 7
(and unchanged at the re-read) with the data version 0 and a first
iteration in which every fetch succeeds, the spec's consistency condition
holds at iteration 1, yet the source never breaks — it compares the
children version against the data version (`cver == stat.version`,
line 170) — and with fetch failures in later iterations it raises
ALL_CONNECTION_TRIES_FAILED. -/
theorem C3_code_eval :
    getClusterM un0 traceC3 = .error .ALL_CONNECTION_TRIES_FAILED ∧
    (traceC3 1).cversion = (traceC3 1).statCversion ∧
    ((traceC3 1).children.all fun kv => kv.2.isSome) = true :=
  ⟨rfl, rfl, rfl⟩

/-- Claim C4 (counterexample): the multi-op built by
createDatabaseNodesInZooKeeper contains no ephemeral-sequential create at
all; the `counter/cnt-` child it creates (and then deletes) is persistent. -/
theorem C4_counterexample :
    (createDatabaseNodesOps "/db").any isEphemeralSequentialCreate = false ∧
    KeeperRequest.create ("/db" ++ "/counter/cnt-") "" CreateMode.Persistent ∈
      createDatabaseNodesOps "/db" := by
  exact ⟨rfl, by decide⟩

/-- Claim C4 (amended): the single multi-op creates the root, log, replicas,
counter and metadata nodes, creates and then deletes one *persistent* child
`counter/cnt-`, and writes `max_log_ptr=1` and `logs_to_keep=1000`; ZOK
maps to true, ZNODEEXISTS to false, and every other error propagates. -/
theorem C4_amended (p : String) (e : KeeperError)
    (h1 : e ≠ KeeperError.ZOK) (h2 : e ≠ KeeperError.ZNODEEXISTS) :
    createDatabaseNodesOps p =
      [ .create p "" .Persistent,
        .create (p ++ "/log") "" .Persistent,
        .create (p ++ "/replicas") "" .Persistent,
        .create (p ++ "/counter") "" .Persistent,
        .create (p ++ "/counter/cnt-") "" .Persistent,
        .remove (p ++ "/counter/cnt-") (-1),
        .create (p ++ "/metadata") "" .Persistent,
        .create (p ++ "/max_log_ptr") "1" .Persistent,
        .create (p ++ "/logs_to_keep") "1000" .Persistent ] ∧
    createDatabaseNodesResult KeeperError.ZOK = .ok true ∧
    createDatabaseNodesResult KeeperError.ZNODEEXISTS = .ok false ∧
    createDatabaseNodesResult e = .error e := by
  refine ⟨rfl, rfl, rfl, ?_⟩
  cases e with
  | ZOK => exact absurd rfl h1
  | ZNODEEXISTS => exact absurd rfl h2
  | ZNONODE => rfl
  | ZBADVERSION => rfl
  | ZCONNECTIONLOSS => rfl

/-- Witness for the amended claim C4 at path `"/db"` and error
ZCONNECTIONLOSS. -/
theorem C4_witness :
    KeeperError.ZCONNECTIONLOSS ≠ KeeperError.ZOK ∧
    KeeperError.ZCONNECTIONLOSS ≠ KeeperError.ZNODEEXISTS ∧
    (createDatabaseNodesOps "/db" =
      [ .create "/db" "" .Persistent,
        .create ("/db" ++ "/log") "" .Persistent,
        .create ("/db" ++ "/replicas") "" .Persistent,
        .create ("/db" ++ "/counter") "" .Persistent,
        .create ("/db" ++ "/counter/cnt-") "" .Persistent,
        .remove ("/db" ++ "/counter/cnt-") (-1),
        .create ("/db" ++ "/metadata") "" .Persistent,
        .create ("/db" ++ "/max_log_ptr") "1" .Persistent,
        .create ("/db" ++ "/logs_to_keep") "1000" .Persistent ] ∧
    createDatabaseNodesResult KeeperError.ZOK = .ok true ∧
    createDatabaseNodesResult KeeperError.ZNODEEXISTS = .ok false ∧
    createDatabaseNodesResult KeeperError.ZCONNECTIONLOSS =
      .error KeeperError.ZCONNECTIONLOSS) :=
  ⟨by decide, by decide,
   C4_amended "/db" KeeperError.ZCONNECTIONLOSS (by decide) (by decide)⟩

/-- Claim C5: with the replica node present holding `v`, the constructor
resumes (it does not create replica nodes) exactly when `v` equals the
expected host id `host:tcp_port:database_uuid`, and otherwise throws
REPLICA_IS_ALREADY_EXIST. -/
theorem C5_host_id_check (v host dbUUID : String) (port : Nat) :
    registerReplica (some v) (getHostID host port dbUUID) =
      (if v = getHostID host port dbUUID then Except.ok RegisterOutcome.resume
       else Except.error ErrorCode.REPLICA_IS_ALREADY_EXIST) := by
  by_cases h : v = getHostID host port dbUUID
  · simp [registerReplica, h]
  · simp [registerReplica, h]

/-- Claim C6 (counterexample): invoked with a local log pointer of 0 and a
non-empty local catalog, recoverLostReplica does not proceed with
recovery — it throws LOGICAL_ERROR ("It's new replica, but database is not
empty", line 309) before obtaining the snapshot. -/
theorem C6_counterexample :
    recoverLostReplica u0 [("t", "A")] [("t", "A")] 0 =
      some (Except.error ErrorCode.LOGICAL_ERROR) ∧
    ¬ ∃ acts, recoverLostReplica u0 [("t", "A")] [("t", "A")] 0 =
      some (Except.ok acts) := by
  refine ⟨rfl, ?_⟩
  rintro ⟨acts, hacts⟩
  have h1 : recoverLostReplica u0 [("t", "A")] [("t", "A")] 0 =
      some (Except.error ErrorCode.LOGICAL_ERROR) := rfl
  rw [h1] at hacts
  exact Except.noConfusion (Option.some.inj hacts)

/-- Claim C6 (amended): recoverLostReplica, invoked with a local log pointer
of 0 while the local catalog is non-empty, rejects the invocation with
LOGICAL_ERROR instead of reconciling. -/
theorem C6_amended (u : String → Nat) (zkMeta locals : List (String × String))
    (h : locals ≠ []) :
    recoverLostReplica u zkMeta locals 0 =
      some (Except.error ErrorCode.LOGICAL_ERROR) := by
  unfold recoverLostReplica
  exact if_pos ⟨rfl, h⟩

/-- Witness for the amended claim C6 at a concrete non-empty catalog. -/
theorem C6_witness :
    ([("t", "A")] : List (String × String)) ≠ [] ∧
    recoverLostReplica u0 [] [("t", "A")] 0 =
      some (Except.error ErrorCode.LOGICAL_ERROR) :=
  ⟨by decide, C6_amended u0 [] [("t", "A")] (by decide)⟩

/-- Claim C7: on an initial query, renameTable raises NOT_IMPLEMENTED when
the target database differs, INCORRECT_QUERY on a self rename,
UNKNOWN_TABLE when the source is missing and UNKNOWN_TABLE when exchange is
requested and the target is missing — in each case returning before any
coordination op is queued (the error carries no op list). -/
theorem C7_rename_preconditions (meta esc : String → String) (zkPath : String)
    (a : RenameArgs) :
    (a.sameDatabase = false →
      renameTableInitial meta esc zkPath a = .error .NOT_IMPLEMENTED) ∧
    (a.sameDatabase = true → a.tableName = a.toTableName →
      renameTableInitial meta esc zkPath a = .error .INCORRECT_QUERY) ∧
    (a.sameDatabase = true → a.tableName ≠ a.toTableName → a.srcExists = false →
      renameTableInitial meta esc zkPath a = .error .UNKNOWN_TABLE) ∧
    (a.sameDatabase = true → a.tableName ≠ a.toTableName → a.srcExists = true →
      a.exchange = true → a.tgtExists = false →
      renameTableInitial meta esc zkPath a = .error .UNKNOWN_TABLE) := by
  refine ⟨?_, ?_, ?_, ?_⟩
  · intro h1
    simp [renameTableInitial, h1]
  · intro h1 h2
    simp [renameTableInitial, h1, h2]
  · intro h1 h2 h3
    simp [renameTableInitial, h1, h2, h3]
  · intro h1 h2 h3 h4 h5
    simp [renameTableInitial, h1, h2, h3, h4, h5]

/-- Witness for claim C7: one concrete input for each of the four error
cases. -/
theorem C7_witness :
    renameTableInitial un0 un0 "/db" ⟨false, "t", "u", true, true, false⟩ =
      .error .NOT_IMPLEMENTED ∧
    renameTableInitial un0 un0 "/db" ⟨true, "t", "t", true, true, false⟩ =
      .error .INCORRECT_QUERY ∧
    renameTableInitial un0 un0 "/db" ⟨true, "t", "u", false, true, false⟩ =
      .error .UNKNOWN_TABLE ∧
    renameTableInitial un0 un0 "/db" ⟨true, "t", "u", true, false, true⟩ =
      .error .UNKNOWN_TABLE :=
  ⟨(C7_rename_preconditions un0 un0 "/db" _).1 rfl,
   (C7_rename_preconditions un0 un0 "/db" _).2.1 rfl rfl,
   (C7_rename_preconditions un0 un0 "/db" _).2.2.1 rfl (by decide) rfl,
   (C7_rename_preconditions un0 un0 "/db" _).2.2.2 rfl (by decide) rfl rfl rfl⟩

/-- Claim C8: parseQueryFromMetadataInZooKeeper throws LOGICAL_ERROR unless
the parsed CREATE has a non-Nil UUID, the placeholder table name and an
empty database; on success it returns the CREATE with the database set to
this database's name, the table set to the unescaped node name and the
attach flag cleared. -/
theorem C8_parse_metadata (dbName : String) (un : String → String)
    (node : String) (c : ASTCreateQuery) :
    (c.uuid = UUIDNil ∨ c.table ≠ TABLE_WITH_UUID_NAME_PLACEHOLDER ∨
        c.database ≠ "" →
      parseQueryFromMetadataInZooKeeper dbName un node c =
        .error .LOGICAL_ERROR) ∧
    (c.uuid ≠ UUIDNil → c.table = TABLE_WITH_UUID_NAME_PLACEHOLDER →
        c.database = "" →
      parseQueryFromMetadataInZooKeeper dbName un node c =
        .ok ⟨c.uuid, dbName, un node, false⟩) := by
  constructor
  · intro h
    unfold parseQueryFromMetadataInZooKeeper
    rw [if_pos h]
  · intro h1 h2 h3
    unfold parseQueryFromMetadataInZooKeeper
    rw [if_neg (by rintro (h | h | h); exacts [h1 h, h h2, h h3])]

/-- Witness for claim C8: a stored CREATE with Nil UUID is rejected; a
well-formed one is rewritten. -/
theorem C8_witness :
    parseQueryFromMetadataInZooKeeper "db" un0 "t" ⟨0, "", "_", true⟩ =
      .error .LOGICAL_ERROR ∧
    parseQueryFromMetadataInZooKeeper "db" un0 "t" ⟨7, "", "_", true⟩ =
      .ok ⟨7, "db", un0 "t", false⟩ :=
  ⟨(C8_parse_metadata "db" un0 "t" _).1 (Or.inl rfl),
   (C8_parse_metadata "db" un0 "t" _).2 (by decide) rfl rfl⟩

/-- Every host emitted by the shard-grouping loop either was already in the
accumulators or comes from an input pair whose node value is not the
DROPPED sentinel. -/
theorem buildShardsGo_mem (u : String → String) (pairs : List (String × String)) :
    ∀ curShard done cur shards,
      buildShardsGo u pairs curShard done cur = .ok shards →
      ∀ s, s ∈ shards → ∀ x, x ∈ s →
        (∃ d, d ∈ done ∧ x ∈ d) ∨ x ∈ cur ∨
        (∃ nm id2, (nm, id2) ∈ pairs ∧ id2 ≠ DROPPED_MARK ∧
          x = u (hostPart id2)) := by
  induction pairs with
  | nil =>
    intro curShard done cur shards hok s hs x hx
    rw [buildShardsGo] at hok
    have hsh : (cur.reverse :: done).reverse = shards := by
      exact Except.ok.inj hok
    rw [← hsh] at hs
    rcases List.mem_cons.mp (List.mem_reverse.mp hs) with h | h
    · subst h
      exact Or.inr (Or.inl (List.mem_reverse.mp hx))
    · exact Or.inl ⟨s, h, hx⟩
  | cons hd rest ih =>
    obtain ⟨name, id2⟩ := hd
    intro curShard done cur shards hok s hs x hx
    rw [buildShardsGo] at hok
    by_cases hdrop : id2 = DROPPED_MARK
    · rw [if_pos hdrop] at hok
      rcases ih curShard done cur shards hok s hs x hx with h | h | ⟨nm, i3, hm, hne, he⟩
      · exact Or.inl h
      · exact Or.inr (Or.inl h)
      · exact Or.inr (Or.inr ⟨nm, i3, List.mem_cons_of_mem _ hm, hne, he⟩)
    · rw [if_neg hdrop] at hok
      cases hp : parseFullReplicaName name with
      | error e =>
        simp only [hp] at hok
        exact Except.noConfusion hok
      | ok sr =>
        obtain ⟨shard, rep⟩ := sr
        simp only [hp] at hok
        by_cases hsh : shard = curShard
        · rw [if_pos hsh] at hok
          rcases ih curShard done (u (hostPart id2) :: cur) shards hok s hs x hx with
            h | h | ⟨nm, i3, hm, hne, he⟩
          · exact Or.inl h
          · rcases List.mem_cons.mp h with he2 | hc
            · exact Or.inr (Or.inr ⟨name, id2, List.mem_cons_self _ _, hdrop, he2⟩)
            · exact Or.inr (Or.inl hc)
          · exact Or.inr (Or.inr ⟨nm, i3, List.mem_cons_of_mem _ hm, hne, he⟩)
        · rw [if_neg hsh] at hok
          by_cases hcur : cur = []
          · rw [if_pos hcur] at hok
            rcases ih shard done [u (hostPart id2)] shards hok s hs x hx with
              h | h | ⟨nm, i3, hm, hne, he⟩
            · exact Or.inl h
            · have he2 : x = u (hostPart id2) := by simpa using h
              exact Or.inr (Or.inr ⟨name, id2, List.mem_cons_self _ _, hdrop, he2⟩)
            · exact Or.inr (Or.inr ⟨nm, i3, List.mem_cons_of_mem _ hm, hne, he⟩)
          · rw [if_neg hcur] at hok
            rcases ih shard (cur.reverse :: done) [u (hostPart id2)] shards hok s hs x hx with
              ⟨d, hd2, hxd⟩ | h | ⟨nm, i3, hm, hne, he⟩
            · rcases List.mem_cons.mp hd2 with he2 | hd3
              · subst he2
                exact Or.inr (Or.inl (List.mem_reverse.mp hxd))
              · exact Or.inl ⟨d, hd3, hxd⟩
            · have he2 : x = u (hostPart id2) := by simpa using h
              exact Or.inr (Or.inr ⟨name, id2, List.mem_cons_self _ _, hdrop, he2⟩)
            · exact Or.inr (Or.inr ⟨nm, i3, List.mem_cons_of_mem _ hm, hne, he⟩)

/-- Claim C9: whenever getCluster returns a cluster, every host in every
shard comes from a (replica name, node value) pair of the snapshot whose
value is not the DROPPED sentinel — DROPPED replicas are skipped (line
184) — and drop() writes the DROPPED sentinel into the replica node as its
very first action, before any removal. -/
theorem C9_dropped_invisible (u : String → String) (obs : Nat → IterObs)
    (shards : List (List String))
    (hok : getClusterM u obs = .ok shards) :
    (∃ success hosts ids, gcLoop obs 1 10 = .ok (success, hosts, ids) ∧
      ∀ s, s ∈ shards → ∀ x, x ∈ s →
        ∃ nm id2, (nm, id2) ∈ hosts.zip ids ∧ id2 ≠ DROPPED_MARK ∧
          x = u (hostPart id2)) ∧
    ∀ rp zp b, (dropOps rp zp b).head? =
      some (StoreAction.set rp DROPPED_MARK) := by
  refine ⟨?_, fun rp zp b => rfl⟩
  unfold getClusterM at hok
  cases hg : gcLoop obs 1 10 with
  | error e =>
    simp only [hg] at hok
    exact Except.noConfusion hok
  | ok t =>
    obtain ⟨succ, hosts, ids⟩ := t
    simp only [hg] at hok
    cases succ with
    | false => simp at hok
    | true =>
      rw [if_pos rfl] at hok
      refine ⟨true, hosts, ids, rfl, ?_⟩
      intro s hs x hx
      cases hz : hosts.zip ids with
      | nil =>
        rw [hz] at hok
        simp [buildShards] at hok
      | cons p0 ps =>
        obtain ⟨n0, v0⟩ := p0
        rw [hz] at hok
        simp only [buildShards] at hok
        cases hp0 : parseFullReplicaName n0 with
        | error e =>
          simp only [hp0] at hok
          exact Except.noConfusion hok
        | ok sr0 =>
          obtain ⟨shard0, rep0⟩ := sr0
          simp only [hp0] at hok
          rcases buildShardsGo_mem u ((n0, v0) :: ps) shard0 [] [] shards hok s hs x hx with
            ⟨d, hd, _⟩ | h | ⟨nm, i3, hm, hne, he⟩
          · exact absurd hd (List.not_mem_nil d)
          · exact absurd h (List.not_mem_nil x)
          · exact ⟨nm, i3, hz ▸ hm, hne, he⟩

/-- Snapshot observed by the getCluster evaluation for the claim C9 witness:
two replicas of one shard, the second tombstoned with DROPPED. -/
def obsW : IterObs :=
  ⟨[("s1|r1", some "hostA:9000:uuidA"), ("s1|r2", some "DROPPED")], 3, 3, 3⟩

/-- Constant observation trace for the claim C9 witness. -/
def traceW (_ : Nat) : IterObs := obsW

/-- Witness for claim C9: on a consistent two-replica snapshot whose second
replica is tombstoned, getCluster returns a single shard containing only the
live host. -/
theorem C9_witness :
    getClusterM un0 traceW = .ok [["hostA"]] ∧
    ((∃ success hosts ids, gcLoop traceW 1 10 = .ok (success, hosts, ids) ∧
      ∀ s, s ∈ [["hostA"]] → ∀ x, x ∈ s →
        ∃ nm id2, (nm, id2) ∈ hosts.zip ids ∧ id2 ≠ DROPPED_MARK ∧
          x = un0 (hostPart id2)) ∧
    ∀ rp zp b, (dropOps rp zp b).head? =
      some (StoreAction.set rp DROPPED_MARK)) :=
  ⟨rfl, C9_dropped_invisible un0 traceW [["hostA"]] rfl⟩

/-- Helper for claim C10: when the stripped path is non-empty and does not
end in a slash, the front check yields a path that begins with a slash and
still does not end in one. -/
theorem prependSlash_spec (l : List Char) (h : l ≠ [])
    (hl : l.getLast? ≠ some '/') :
    ∃ q, prependSlash l = some q ∧ q.head? = some '/' ∧
      q.getLast? ≠ some '/' := by
  cases l with
  | nil => exact absurd rfl h
  | cons c cs =>
    by_cases hc : c = '/'
    · refine ⟨c :: cs, ?_, ?_, hl⟩
      · simp [prependSlash, hc]
      · simp [hc]
    · refine ⟨'/' :: c :: cs, ?_, ?_, ?_⟩
      · simp [prependSlash, hc]
      · simp
      · rw [List.getLast?_cons_cons]
        exact hl

/-- Claim C10 (counterexample): the normalization does not establish the
claimed invariant for every accepted non-empty path: on `"//"` one trailing
slash is stripped and the first character is already a slash, so the stored
path is `"/"`, which ends with `'/'` (and on `"/"` the normalization reads
the front of an empty string — undefined behaviour). -/
theorem C10_counterexample :
    ¬ (∀ p : List Char, p ≠ [] →
        ∃ q, normalizeZkPath p = some q ∧ q.head? = some '/' ∧
          q.getLast? ≠ some '/') := by
  intro hclaim
  rcases hclaim ['/', '/'] (by decide) with ⟨q, hq, _, hlast⟩
  have he : normalizeZkPath ['/', '/'] = some ['/'] := rfl
  rw [he] at hq
  have hq' : q = ['/'] := (Option.some.inj hq).symm
  subst hq'
  exact hlast rfl

/-- Claim C10 (amended): for every non-empty path other than `"/"` whose
text does not end in a double slash, the normalization is defined and the
stored path begins with `'/'` and does not end with `'/'`. -/
theorem C10_amended (p : List Char) (h1 : p ≠ []) (h2 : p ≠ ['/'])
    (h3 : ¬ (p.getLast? = some '/' ∧ p.dropLast.getLast? = some '/')) :
    ∃ q, normalizeZkPath p = some q ∧ q.head? = some '/' ∧
      q.getLast? ≠ some '/' := by
  unfold normalizeZkPath
  by_cases hl : p.getLast? = some '/'
  · rw [if_pos hl]
    have hdl : p.dropLast ≠ [] := by
      cases p with
      | nil => exact absurd rfl h1
      | cons a t =>
        cases t with
        | nil =>
          have ha : a = '/' := by simpa using hl
          subst ha
          exact absurd rfl h2
        | cons b t2 => simp
    exact prependSlash_spec _ hdl (fun hc => h3 ⟨hl, hc⟩)
  · rw [if_neg hl]
    exact prependSlash_spec p h1 hl

/-- Witness for the amended claim C10 at the path `"a"`, normalized to
`"/a"`. -/
theorem C10_witness :
    (['a'] : List Char) ≠ [] ∧ (['a'] : List Char) ≠ ['/'] ∧
    ¬ ((['a'] : List Char).getLast? = some '/' ∧
       (['a'] : List Char).dropLast.getLast? = some '/') ∧
    ∃ q, normalizeZkPath ['a'] = some q ∧ q.head? = some '/' ∧
      q.getLast? ≠ some '/' :=
  ⟨by decide, by decide, by decide,
   C10_amended ['a'] (by decide) (by decide) (by decide)⟩
